import Mathlib

/-!
Shallow embedding of the semantic-search core of `bq-ai-patent-analyst`
(`src/app/services/semantic_search.py`, `src/app/utils/semantic_search.py`,
`src/app/core/app_controller.py`), together with theorems settling the
behavioural claims about it.

Conventions of the embedding:
* Python values that may or may not be strings are modelled by `PyVal`.
* `str.replace(old, new)` is modelled by `pyReplace` (left-to-right,
  non-overlapping, faithful for non-empty patterns; the empty pattern is
  unused by the code and treated as a no-op).
* The BigQuery client is an oracle `String → QueryResult` that either
  returns a table or raises (carrying `str(e)`).
* A pandas `DataFrame` is a list of rows; `df.empty` is emptiness of that
  list.  Evaluating a `DataFrame` for truth (`results_df or pd.DataFrame()`)
  unconditionally raises `ValueError` in pandas (`NDFrame.__bool__`); the
  embedding models that raise explicitly.
* Functions that can issue warehouse calls also return the list of SQL
  texts they submitted, so "no warehouse call issued" is statable.
* A Python function that may raise returns `Except String α`, the error
  carrying the exception text.
-/

/-- A Python value as far as the search code inspects one: a string or one
of the non-string values the UI could hand in (`isinstance(query, str)` is
the only type test performed). -/
inductive PyVal where
  | str (s : String)
  | int (n : Int)
  | bool (b : Bool)
  | pynone
deriving DecidableEq

/-- Python `str()` rendering as used by f-string interpolation of the raw
query into user-facing messages. -/
def pyStr : PyVal → String
  | .str s => s
  | .int n => toString n
  | .bool true => "True"
  | .bool false => "False"
  | .pynone => "None"

/-- Worker for `pyReplace`, structurally recursive on a fuel that bounds
the number of characters still to scan (each step consumes at least one
character, so `l.length` fuel always suffices and the `0, l => l` branch
is unreachable from `pyReplace`). -/
def pyReplaceAux (pat rep : List Char) : Nat → List Char → List Char
  | _, [] => []
  | 0, l => l
  | fuel + 1, c :: cs =>
    if pat.isPrefixOf (c :: cs) ∧ pat ≠ [] then
      rep ++ pyReplaceAux pat rep fuel (cs.drop (pat.length - 1))
    else
      c :: pyReplaceAux pat rep fuel cs

/-- Python `str.replace(pat, rep)` on character lists: scan left to right,
replacing non-overlapping occurrences of `pat` by `rep`.  Faithful for
non-empty `pat` (the code only ever replaces the one-character pattern
`'`); the empty pattern, unused, is treated as a no-op. -/
def pyReplace (pat rep l : List Char) : List Char :=
  pyReplaceAux pat rep l.length l

/-- Embeds `SemanticSearchService.sanitize_for_sql`
(`src/app/services/semantic_search.py:30-43`): non-strings map to `""`,
strings have every `'` replaced by `\'`. -/
def sanitize_for_sql (query : PyVal) : String :=
  match query with
  | .str s => String.mk (pyReplace ['\''] ['\\', '\''] s.data)
  | _ => ""

/-- Embeds the `SearchConfig` dataclass
(`src/app/services/semantic_search.py:12-19`); the Python defaults
(`"patent_analysis"`, `"embedding_model"`, `"gemini_vision_analyzer"`,
`"component_search_index"`) are supplied at construction sites and play no
role in the claims. -/
structure SearchConfig where
  project_id : String
  dataset_id : String
  embedding_model : String
  classification_model : String
  search_index : String
deriving DecidableEq

/-- Embeds `SemanticSearchService._build_vector_search_query`
(`src/app/services/semantic_search.py:90-114`): the f-string template,
with `{x}` interpolations rendered by `toString` (Python `str`). -/
def _build_vector_search_query (config : SearchConfig) (search_query : String)
    (distance_threshold : Float) (top_k : Int) : String :=
  "\n                    WITH search_results AS (\n                        SELECT\n                            base.uri, base.component_name, base.component_function, distance\n                        FROM\n                            VECTOR_SEARCH(\n                                TABLE `"
    ++ config.project_id ++ "." ++ config.dataset_id ++ "." ++ config.search_index
    ++ "`,\n                                'combined_vector',\n                                (\n                                    SELECT ml_generate_embedding_result\n                                    FROM ML.GENERATE_EMBEDDING(\n                                        MODEL `"
    ++ config.project_id ++ "." ++ config.dataset_id ++ "." ++ config.embedding_model
    ++ "`,\n                                        (\n                                            SELECT CONCAT('Represent this technical patent component for semantic search: ', '"
    ++ search_query
    ++ "') AS content\n                                        )\n                                    )\n                                ),\n                                top_k => "
    ++ toString top_k
    ++ ",\n                                distance_type => 'COSINE'\n                            )\n                    )\n                    SELECT * FROM search_results WHERE distance < "
    ++ toString distance_threshold
    ++ ";\n            "

/-- Embeds `SemanticSearchService._build_grouped_search_query`
(`src/app/services/semantic_search.py:116-156`). -/
def _build_grouped_search_query (config : SearchConfig) (search_query : String)
    (distance_threshold : Float) (top_k patents_limit per_uri_limit : Int) : String :=
  "\n                    WITH search_results AS (\n                        SELECT\n                            base.uri, base.component_name, base.component_function, distance\n                        FROM\n                            VECTOR_SEARCH(\n                                TABLE `"
    ++ config.project_id ++ "." ++ config.dataset_id ++ "." ++ config.search_index
    ++ "`,\n                                'combined_vector',\n                                (\n                                    SELECT ml_generate_embedding_result\n                                    FROM ML.GENERATE_EMBEDDING(\n                                        MODEL `"
    ++ config.project_id ++ "." ++ config.dataset_id ++ "." ++ config.embedding_model
    ++ "`,\n                                        (\n                                            SELECT CONCAT('Represent this technical patent component for semantic search: ', '"
    ++ search_query
    ++ "') AS content\n                                        )\n                                    )\n                                ),\n                                top_k => "
    ++ toString top_k
    ++ ",\n                                distance_type => 'COSINE'\n                            )\n                    )\n                    SELECT\n                        uri,\n                        MIN(distance) AS best_distance,\n                        COUNT(1) AS hit_count,\n                        ARRAY_AGG(STRUCT(component_name, component_function, distance) ORDER BY distance ASC LIMIT "
    ++ toString per_uri_limit
    ++ ") AS top_components\n                    FROM search_results\n                    WHERE distance < "
    ++ toString distance_threshold
    ++ "\n                    GROUP BY uri\n                    ORDER BY best_distance ASC\n                    LIMIT "
    ++ toString patents_limit
    ++ "\n            "

/-- Embeds `SemanticSearchService._build_detail_query`
(`src/app/services/semantic_search.py:158-191`). -/
def _build_detail_query (config : SearchConfig) (search_query uri : String)
    (distance_threshold : Float) (top_k : Int) : String :=
  "\n                    WITH search_results AS (\n                        SELECT\n                            base.uri, base.component_name, base.component_function, distance\n                        FROM\n                            VECTOR_SEARCH(\n                                TABLE `"
    ++ config.project_id ++ "." ++ config.dataset_id ++ "." ++ config.search_index
    ++ "`,\n                                'combined_vector',\n                                (\n                                    SELECT ml_generate_embedding_result\n                                    FROM ML.GENERATE_EMBEDDING(\n                                        MODEL `"
    ++ config.project_id ++ "." ++ config.dataset_id ++ "." ++ config.embedding_model
    ++ "`,\n                                        (\n                                            SELECT CONCAT('Represent this technical patent component for semantic search: ', '"
    ++ search_query
    ++ "') AS content\n                                        )\n                                    )\n                                ),\n                                top_k => "
    ++ toString top_k
    ++ ",\n                                distance_type => 'COSINE'\n                            )\n                    )\n                    SELECT uri, component_name, component_function, distance\n                    FROM search_results\n                    WHERE distance < "
    ++ toString distance_threshold
    ++ " AND uri = '" ++ uri
    ++ "'\n                    ORDER BY distance ASC\n            "

/-- Embeds `SemanticSearchService._build_classification_query`
(`src/app/services/semantic_search.py:45-63`), inlining the
`classification_prompt` f-string exactly as the source builds it. -/
def _build_classification_query (config : SearchConfig) (search_query : String) : String :=
  "\n        SELECT ml_generate_text_llm_result\n        FROM ML.GENERATE_TEXT(\n            MODEL `"
    ++ config.project_id ++ "." ++ config.dataset_id ++ "." ++ config.classification_model
    ++ "`,\n            (SELECT '''\n            Is the following user query related to a technical, scientific, \n            or engineering topic? Answer with only 'Yes' or 'No'. Query: "
    ++ search_query
    ++ "\n        ''' AS prompt),\n            STRUCT(\n                0.0 AS temperature, \n                TRUE AS flatten_json_output, \n                1024 AS max_output_tokens\n            )\n        )\n        "

/-- One row of a flat search result, as produced by the warehouse
(`base.uri, base.component_name, base.component_function, distance`).
`distance` is modelled as a rational. -/
structure ComponentHit where
  uri : String
  component_name : String
  component_function : String
  distance : ℚ
deriving DecidableEq

/-- A pandas `DataFrame` of search results: a list of rows.  `df.empty`
is `rows = []`, `len(df)` is `rows.length`. -/
structure DataFrame where
  rows : List ComponentHit
deriving DecidableEq

/-- Outcome of `client.query(sql).to_dataframe()`: a table, or an
exception carrying `str(e)`. -/
inductive QueryResult where
  | ok (df : DataFrame)
  | raise (e : String)

/-- Embeds `SemanticSearchService` (`src/app/services/semantic_search.py:22-28`):
a config and an optional client, the client abstracted to an oracle from
submitted SQL text to its outcome. -/
structure SemanticSearchService where
  config : SearchConfig
  client : Option (String → QueryResult)

/-- The `ValueError` text pandas raises from `NDFrame.__bool__` whenever a
`DataFrame` is evaluated for truth, as `results_df or pd.DataFrame()` does
when `results_df` is a (possibly empty) `DataFrame`. -/
def pandasTruthErr : String :=
  "The truth value of a DataFrame is ambiguous. Use a.empty, a.bool(), a.item(), a.any() or a.all()."

/-- Embeds `SemanticSearchService.perform_vector_search`
(`src/app/services/semantic_search.py:193-219`).  Returns the Python
return value `(df | None, error | None)` paired with the list of SQL
texts submitted to the warehouse. -/
def perform_vector_search (svc : SemanticSearchService) (search_query : String)
    (distance_threshold : Float) (top_k : Int) :
    (Option DataFrame × Option String) × List String :=
  match svc.client with
  | none => ((none, some "BigQuery client not available"), [])
  | some client =>
    let sql_query := _build_vector_search_query svc.config search_query distance_threshold top_k
    match client sql_query with
    | .ok df => ((some df, none), [sql_query])
    | .raise e => ((none, some ("Vector search failed: " ++ e)), [sql_query])

/-- Embeds `SemanticSearchService.perform_grouped_search`
(`src/app/services/semantic_search.py:221-250`), with the submitted-SQL
log as in `perform_vector_search`. -/
def perform_grouped_search (svc : SemanticSearchService) (sanitized_query : String)
    (distance_threshold : Float) (top_k patents_limit per_uri_limit : Int) :
    (Option DataFrame × Option String) × List String :=
  match svc.client with
  | none => ((none, some "BigQuery client not available"), [])
  | some client =>
    if sanitized_query = "" then
      ((none, some "Please enter a valid search query."), [])
    else
      let sql_query := _build_grouped_search_query svc.config sanitized_query
        distance_threshold top_k patents_limit per_uri_limit
      match client sql_query with
      | .ok df => ((some df, none), [sql_query])
      | .raise e => ((none, some ("Grouped search failed: " ++ e)), [sql_query])

/-- Embeds `SemanticSearchService.get_components_for_uri`
(`src/app/services/semantic_search.py:252-276`). -/
def get_components_for_uri (svc : SemanticSearchService) (sanitized_query sanitized_uri : String)
    (distance_threshold : Float) (top_k : Int) :
    (Option DataFrame × Option String) × List String :=
  match svc.client with
  | none => ((none, some "BigQuery client not available"), [])
  | some client =>
    if sanitized_query = "" ∨ sanitized_uri = "" then
      ((none, some "Invalid query or URI."), [])
    else
      let sql_query := _build_detail_query svc.config sanitized_query sanitized_uri
        distance_threshold top_k
      match client sql_query with
      | .ok df => ((some df, none), [sql_query])
      | .raise e => ((none, some ("Detail fetch failed: " ++ e)), [sql_query])

/-- Embeds `SemanticSearchService.run_semantic_search`
(`src/app/services/semantic_search.py:278-332`), the classification step
being commented out in the source.  The value is the Python outcome: an
exception (`Except.error` carrying `str(e)`) or the returned triple
`(success, message, results_df)`, paired with the submitted-SQL log.
The zero-row branch evaluates `results_df or pd.DataFrame()`: when
`results_df` is `None` that yields an empty `DataFrame`, and when it is a
`DataFrame` pandas raises `ValueError` (`pandasTruthErr`). -/
def run_semantic_search (svc : SemanticSearchService) (raw_query : PyVal)
    (distance_threshold : Float) (top_k : Int) :
    Except String (Bool × String × Option DataFrame) × List String :=
  let sanitized_query := sanitize_for_sql raw_query
  if sanitized_query = "" then
    (.ok (false, "Please enter a valid search query.", none), [])
  else
    let pv := perform_vector_search svc sanitized_query distance_threshold top_k
    let results_df := pv.1.1
    let calls := pv.2
    match pv.1.2 with
    | some error => (.ok (false, error, none), calls)
    | none =>
      match results_df with
      | none =>
        (.ok (true, "No results found for '" ++ pyStr raw_query ++ "'. Try a different query.",
          some ⟨[]⟩), calls)
      | some df =>
        if df.rows.isEmpty then
          (.error pandasTruthErr, calls)
        else
          (.ok (true, "Found " ++ toString df.rows.length ++ " results for '"
            ++ pyStr raw_query ++ "'.", some df), calls)

/-- Rounding half to even on rationals: the semantics of numpy `round`,
used by pandas `Series.round()` in the result formatter. -/
def roundHalfEven (x : ℚ) : Int :=
  if x - ⌊x⌋ < 1/2 then ⌊x⌋
  else if 1/2 < x - ⌊x⌋ then ⌊x⌋ + 1
  else if ⌊x⌋ % 2 = 0 then ⌊x⌋ else ⌊x⌋ + 1

/-- A display row of the formatted search results: columns
`Patent URI`, `Component`, `Function`, `Similarity` (integer). -/
structure DisplayRow where
  patent_uri : String
  component : String
  function : String
  similarity : Int
deriving DecidableEq

/-- Embeds `AppController._format_search_results`
(`src/app/core/app_controller.py:92-113`): rename `uri`/`component_name`/
`component_function`, add `Similarity = ((1 - distance) * 100).round().astype(int)`,
drop `distance`, reorder columns. -/
def _format_search_results (df : DataFrame) : List DisplayRow :=
  df.rows.map fun h =>
    ⟨h.uri, h.component_name, h.component_function, roundHalfEven ((1 - h.distance) * 100)⟩

/-- A concrete configuration used in witnesses. -/
def exampleConfig : SearchConfig :=
  ⟨"proj", "patent_analysis", "embedding_model", "gemini_vision_analyzer", "component_search_index"⟩

/-- A concrete three-row result table used in witnesses, with distances
0.2, 1.0 and 0.0. -/
def exampleDf3 : DataFrame :=
  ⟨[⟨"gs://bucket/p1.pdf", "rotor", "spins", 1/5⟩,
    ⟨"gs://bucket/p2.pdf", "stator", "holds", 1⟩,
    ⟨"gs://bucket/p3.pdf", "valve", "seals", 0⟩]⟩

/-- A warehouse oracle answering every query with `exampleDf3`. -/
def exampleClient3 : String → QueryResult := fun _ => .ok exampleDf3

/-- Worker form of `pyReplace_singleton`: with enough fuel, replacing the
one-character pattern `[q]` rewrites each character independently. -/
theorem pyReplaceAux_singleton (q : Char) (rep : List Char) (l : List Char) :
    ∀ fuel : Nat, l.length ≤ fuel →
      pyReplaceAux [q] rep fuel l = l.flatMap (fun c => if c = q then rep else [c]) := by
  induction l with
  | nil => intro fuel _; cases fuel <;> simp [pyReplaceAux]
  | cons c cs ih =>
    intro fuel hfuel
    match fuel with
    | 0 => simp at hfuel
    | fuel + 1 =>
      rw [pyReplaceAux]
      have hfuel2 : cs.length ≤ fuel := by simpa using hfuel
      by_cases hc : c = q
      · subst hc
        simp [List.isPrefixOf, ih fuel hfuel2]
      · have : ¬ (q == c) = true := by
          simp [BEq.beq]
          exact fun h => hc h.symm
        simp [List.isPrefixOf, this, hc, ih fuel hfuel2]

/-- Character-wise reading of single-character replacement: replacing the
one-character pattern `[q]` rewrites each character independently. -/
theorem pyReplace_singleton (q : Char) (rep : List Char) (l : List Char) :
    pyReplace [q] rep l = l.flatMap (fun c => if c = q then rep else [c]) :=
  pyReplaceAux_singleton q rep l l.length le_rfl

/-- C2: for every non-string input `sanitize_for_sql` returns `""`; for
every string input it returns the string with every occurrence of `'`
replaced by `\'` and every other character unchanged (stated character by
character via `flatMap`). -/
theorem sanitize_for_sql_spec (v : PyVal) :
    sanitize_for_sql v =
      match v with
      | .str s => String.mk (s.data.flatMap fun c => if c = '\'' then ['\\', '\''] else [c])
      | _ => "" := by
  cases v <;> simp [sanitize_for_sql, pyReplace_singleton]

/-- Each character of the sanitized text contributes its length: a quote
becomes two characters, anything else stays one. -/
theorem flatMap_quote_length (l : List Char) :
    (l.flatMap fun c => if c = '\'' then ['\\', '\''] else [c]).length
      = l.length + l.count '\'' := by
  induction l with
  | nil => simp
  | cons c cs ih =>
    by_cases hc : c = '\''
    · subst hc
      simp [ih, List.count_cons]
      omega
    · simp [hc, ih, List.count_cons]
      omega

/-- Sanitizing preserves the number of quote characters: each quote maps
to `\'` (one quote), and no other character produces a quote. -/
theorem flatMap_quote_count (l : List Char) :
    ((l.flatMap fun c => if c = '\'' then ['\\', '\''] else [c]).count '\'')
      = l.count '\'' := by
  induction l with
  | nil => simp
  | cons c cs ih =>
    by_cases hc : c = '\''
    · subst hc
      simp [ih, List.count_cons, List.count_append]
    · simp [hc, ih, List.count_cons, List.count_append]

/-- The character list of a sanitized string, in `flatMap` form. -/
theorem sanitize_for_sql_data (s : String) :
    (sanitize_for_sql (.str s)).data
      = s.data.flatMap fun c => if c = '\'' then ['\\', '\''] else [c] := by
  simp [sanitize_for_sql, pyReplace_singleton]

/-- C3: `sanitize_for_sql` is not idempotent: on any string containing a
single quote, applying it twice gives a strictly different (longer)
string than applying it once. -/
theorem sanitize_for_sql_not_idempotent (s : String) (h : '\'' ∈ s.data) :
    sanitize_for_sql (.str (sanitize_for_sql (.str s))) ≠ sanitize_for_sql (.str s) := by
  intro heq
  have hcnt : 0 < s.data.count '\'' := List.count_pos_iff.mpr h
  have hlen := congrArg (fun t : String => t.data.length) heq
  simp only [sanitize_for_sql_data, flatMap_quote_length, flatMap_quote_count] at hlen
  omega

/-- C3 witness: the concrete string `a'b` sanitizes to `a\'b` and again to
`a\\'b`, which differ. -/
theorem sanitize_for_sql_not_idempotent_witness :
    '\'' ∈ ("a'b" : String).data ∧
      sanitize_for_sql (.str (sanitize_for_sql (.str "a'b"))) ≠ sanitize_for_sql (.str "a'b") :=
  ⟨by decide, sanitize_for_sql_not_idempotent "a'b" (by decide)⟩

/-- C10: on a string with no single-quote character, `sanitize_for_sql` is
the identity — quotes are the only characters the sanitizer ever alters. -/
theorem sanitize_for_sql_id_of_no_quote (s : String) (h : '\'' ∉ s.data) :
    sanitize_for_sql (.str s) = s := by
  have hdata : ∀ l : List Char, '\'' ∉ l →
      l.flatMap (fun c => if c = '\'' then ['\\', '\''] else [c]) = l := by
    intro l hl
    induction l with
    | nil => simp
    | cons c cs ih =>
      simp only [List.mem_cons, not_or] at hl
      have hc : ¬ c = '\'' := fun hc => hl.1 hc.symm
      simp [hc, ih hl.2]
  have h2 := sanitize_for_sql_data s
  rw [hdata s.data h] at h2
  cases s with
  | mk data => exact congrArg String.mk h2

/-- C10 witness: a string holding backslash, double quote, backtick and
semicolon passes through unchanged. -/
theorem sanitize_for_sql_id_of_no_quote_witness :
    '\'' ∉ ("a\\b\"c;`d" : String).data ∧
      sanitize_for_sql (.str "a\\b\"c;`d") = "a\\b\"c;`d" :=
  ⟨by decide, sanitize_for_sql_id_of_no_quote "a\\b\"c;`d" (by decide)⟩

/-- C4: all four query builders are deterministic pure functions — for a
fixed `SearchConfig`, two calls with identical argument tuples produce
byte-identical SQL text. -/
theorem query_builders_deterministic (config : SearchConfig) (q1 q2 u1 u2 : String)
    (t1 t2 : Float) (k1 k2 p1 p2 r1 r2 : Int)
    (hq : q1 = q2) (ht : t1 = t2) (hk : k1 = k2) (hu : u1 = u2) (hp : p1 = p2) (hr : r1 = r2) :
    _build_vector_search_query config q1 t1 k1 = _build_vector_search_query config q2 t2 k2 ∧
    _build_grouped_search_query config q1 t1 k1 p1 r1
      = _build_grouped_search_query config q2 t2 k2 p2 r2 ∧
    _build_detail_query config q1 u1 t1 k1 = _build_detail_query config q2 u2 t2 k2 ∧
    _build_classification_query config q1 = _build_classification_query config q2 := by
  subst hq; subst ht; subst hk; subst hu; subst hp; subst hr
  exact ⟨rfl, rfl, rfl, rfl⟩

/-- C4 witness: the four builders at a concrete argument tuple, applied
twice, agree byte for byte. -/
theorem query_builders_deterministic_witness :
    _build_vector_search_query exampleConfig "gear assembly" 0.8 70
      = _build_vector_search_query exampleConfig "gear assembly" 0.8 70 ∧
    _build_grouped_search_query exampleConfig "gear assembly" 0.8 70 20 5
      = _build_grouped_search_query exampleConfig "gear assembly" 0.8 70 20 5 ∧
    _build_detail_query exampleConfig "gear assembly" "gs://bucket/p1.pdf" 0.8 70
      = _build_detail_query exampleConfig "gear assembly" "gs://bucket/p1.pdf" 0.8 70 ∧
    _build_classification_query exampleConfig "gear assembly"
      = _build_classification_query exampleConfig "gear assembly" :=
  query_builders_deterministic exampleConfig "gear assembly" "gear assembly"
    "gs://bucket/p1.pdf" "gs://bucket/p1.pdf" 0.8 0.8 70 70 20 20 5 5
    rfl rfl rfl rfl rfl rfl

/-- C5: whenever the sanitized form of the raw query is empty (in
particular for the empty string and for every non-string input),
`run_semantic_search` returns `(False, "Please enter a valid search
query.", None)` and issues no warehouse call. -/
theorem run_semantic_search_empty_query (svc : SemanticSearchService) (raw : PyVal)
    (t : Float) (k : Int) (h : sanitize_for_sql raw = "") :
    run_semantic_search svc raw t k =
      (.ok (false, "Please enter a valid search query.", none), []) := by
  simp [run_semantic_search, h]

/-- C5 witness: the non-string input `7` (whose sanitized form is empty)
short-circuits with the failure triple and an empty call log, even though
a client is available. -/
theorem run_semantic_search_empty_query_witness :
    sanitize_for_sql (.int 7) = "" ∧
      run_semantic_search ⟨exampleConfig, some exampleClient3⟩ (.int 7) 0.8 70 =
        (.ok (false, "Please enter a valid search query.", none), []) :=
  ⟨rfl, run_semantic_search_empty_query ⟨exampleConfig, some exampleClient3⟩ (.int 7) 0.8 70 rfl⟩

/-- C6: when the sanitized query is non-empty and the warehouse call
raises an exception with text `e`, `run_semantic_search` returns
`(False, "Vector search failed: " ++ e, None)` — the exception is caught,
never propagated (the outcome is `Except.ok`). -/
theorem run_semantic_search_warehouse_exception (config : SearchConfig)
    (client : String → QueryResult) (raw : PyVal) (t : Float) (k : Int) (e : String)
    (h : sanitize_for_sql raw ≠ "")
    (hc : client (_build_vector_search_query config (sanitize_for_sql raw) t k) = .raise e) :
    run_semantic_search ⟨config, some client⟩ raw t k =
      (.ok (false, "Vector search failed: " ++ e, none),
        [_build_vector_search_query config (sanitize_for_sql raw) t k]) := by
  simp [run_semantic_search, h, perform_vector_search, hc]

/-- C6 witness: a client raising `ConnectionError("timeout")` yields the
failure triple with message `Vector search failed: timeout` and no
propagated exception. -/
theorem run_semantic_search_warehouse_exception_witness :
    sanitize_for_sql (.str "foo") ≠ "" ∧
      run_semantic_search ⟨exampleConfig, some fun _ => .raise "timeout"⟩ (.str "foo") 0.8 70 =
        (.ok (false, "Vector search failed: timeout", none),
          [_build_vector_search_query exampleConfig (sanitize_for_sql (.str "foo")) 0.8 70]) :=
  ⟨by decide,
    run_semantic_search_warehouse_exception exampleConfig (fun _ => .raise "timeout")
      (.str "foo") 0.8 70 "timeout" (by decide) rfl⟩

/-- C7: when the sanitized query is non-empty and the warehouse call
succeeds with at least one row, `run_semantic_search` returns a success
outcome whose message interpolates the row count and the original raw
query — `Found <N> results for '<rawQuery>'.` — together with the full
table. -/
theorem run_semantic_search_found (config : SearchConfig)
    (client : String → QueryResult) (s : String) (t : Float) (k : Int) (df : DataFrame)
    (h : sanitize_for_sql (.str s) ≠ "")
    (hc : client (_build_vector_search_query config (sanitize_for_sql (.str s)) t k) = .ok df)
    (hr : df.rows ≠ []) :
    run_semantic_search ⟨config, some client⟩ (.str s) t k =
      (.ok (true, "Found " ++ toString df.rows.length ++ " results for '" ++ s ++ "'.", some df),
        [_build_vector_search_query config (sanitize_for_sql (.str s)) t k]) := by
  simp [run_semantic_search, h, perform_vector_search, hc, pyStr, hr]

/-- C7 witness: three rows for raw query `foo` yield exactly
`Found 3 results for 'foo'.` and the full table. -/
theorem run_semantic_search_found_witness :
    sanitize_for_sql (.str "foo") ≠ "" ∧ exampleDf3.rows ≠ [] ∧
      run_semantic_search ⟨exampleConfig, some exampleClient3⟩ (.str "foo") 0.8 70 =
        (.ok (true, "Found 3 results for 'foo'.", some exampleDf3),
          [_build_vector_search_query exampleConfig (sanitize_for_sql (.str "foo")) 0.8 70]) :=
  ⟨by decide, by decide,
    run_semantic_search_found exampleConfig exampleClient3 "foo" 0.8 70 exampleDf3
      (by decide) rfl (by decide)⟩

/-- C8: with a client available, `perform_grouped_search` on an empty
sanitized query returns `(None, "Please enter a valid search query.")`
and submits no SQL to the warehouse. -/
theorem perform_grouped_search_empty_query (config : SearchConfig)
    (client : String → QueryResult) (t : Float) (k p r : Int) :
    perform_grouped_search ⟨config, some client⟩ "" t k p r =
      ((none, some "Please enter a valid search query."), []) := by
  simp [perform_grouped_search]

/-- C1 (code behaviour at the claimed scenario): with a client returning a
zero-row table for raw query `foo`, `run_semantic_search` does not return
the claimed success triple — evaluating `results_df or pd.DataFrame()` on
the empty `DataFrame` raises pandas' truth-value `ValueError`, which
propagates out of `run_semantic_search`. -/
theorem run_semantic_search_zero_rows_raises :
    (run_semantic_search ⟨exampleConfig, some fun _ => .ok ⟨[]⟩⟩ (.str "foo") 0.8 70).1
      = .error pandasTruthErr := rfl

/-- `roundHalfEven` is a genuine rounding: it never strays more than one
half from its argument. -/
theorem roundHalfEven_close (x : ℚ) : |x - (roundHalfEven x : ℚ)| ≤ 1/2 := by
  have h0 : (⌊x⌋ : ℚ) ≤ x := Int.floor_le x
  have h1 : x < ⌊x⌋ + 1 := Int.lt_floor_add_one x
  unfold roundHalfEven
  split_ifs with ha hb hc
  all_goals rw [abs_le]; push_cast; constructor <;> linarith

/-- C9: for a row whose distance lies in `[0, 1]`, the result formatter
produces (at the same position, with the distance column dropped) a
display row copying the URI, component name and component function, whose
`Similarity` is the integer `round((1 - distance) * 100)` — within one
half of `(1 - distance) * 100` and lying in `[0, 100]`. -/
theorem format_search_results_spec (df : DataFrame) (i : Nat) (hi : i < df.rows.length)
    (h0 : 0 ≤ (df.rows.get ⟨i, hi⟩).distance) (h1 : (df.rows.get ⟨i, hi⟩).distance ≤ 1) :
    ∃ hj : i < (_format_search_results df).length,
      (_format_search_results df).length = df.rows.length ∧
      ((_format_search_results df).get ⟨i, hj⟩).patent_uri = (df.rows.get ⟨i, hi⟩).uri ∧
      ((_format_search_results df).get ⟨i, hj⟩).component
        = (df.rows.get ⟨i, hi⟩).component_name ∧
      ((_format_search_results df).get ⟨i, hj⟩).function
        = (df.rows.get ⟨i, hi⟩).component_function ∧
      ((_format_search_results df).get ⟨i, hj⟩).similarity
        = roundHalfEven ((1 - (df.rows.get ⟨i, hi⟩).distance) * 100) ∧
      |(1 - (df.rows.get ⟨i, hi⟩).distance) * 100
          - (((_format_search_results df).get ⟨i, hj⟩).similarity : ℚ)| ≤ 1/2 ∧
      0 ≤ ((_format_search_results df).get ⟨i, hj⟩).similarity ∧
      ((_format_search_results df).get ⟨i, hj⟩).similarity ≤ 100 := by
  have hlen : (_format_search_results df).length = df.rows.length := by
    simp [_format_search_results]
  have hj : i < (_format_search_results df).length := by omega
  have hget : (_format_search_results df).get ⟨i, hj⟩
      = ⟨(df.rows.get ⟨i, hi⟩).uri, (df.rows.get ⟨i, hi⟩).component_name,
          (df.rows.get ⟨i, hi⟩).component_function,
          roundHalfEven ((1 - (df.rows.get ⟨i, hi⟩).distance) * 100)⟩ := by
    simp [_format_search_results]
  have hc := roundHalfEven_close ((1 - (df.rows.get ⟨i, hi⟩).distance) * 100)
  rw [abs_le] at hc
  have hx0 : 0 ≤ (1 - (df.rows.get ⟨i, hi⟩).distance) * 100 := by nlinarith
  have hx100 : (1 - (df.rows.get ⟨i, hi⟩).distance) * 100 ≤ 100 := by nlinarith
  have hr0 : 0 ≤ roundHalfEven ((1 - (df.rows.get ⟨i, hi⟩).distance) * 100) := by
    have hlt : (-1 : ℚ) < (roundHalfEven ((1 - (df.rows.get ⟨i, hi⟩).distance) * 100) : ℚ) := by
      linarith
    have : (-1 : Int) < roundHalfEven ((1 - (df.rows.get ⟨i, hi⟩).distance) * 100) := by
      exact_mod_cast hlt
    omega
  have hr100 : roundHalfEven ((1 - (df.rows.get ⟨i, hi⟩).distance) * 100) ≤ 100 := by
    have hlt : (roundHalfEven ((1 - (df.rows.get ⟨i, hi⟩).distance) * 100) : ℚ) < 101 := by
      linarith
    have : roundHalfEven ((1 - (df.rows.get ⟨i, hi⟩).distance) * 100) < (101 : Int) := by
      exact_mod_cast hlt
    omega
  refine ⟨hj, hlen, ?_, ?_, ?_, ?_, ?_, ?_, ?_⟩ <;> rw [hget]
  · rw [abs_le]
    exact hc
  · exact hr0
  · exact hr100

/-- C9 witness: on the concrete table with distances 0.2, 1.0 and 0.0 the
formatter yields display rows with similarities 80, 0 and 100, and the
spec theorem applies to its first row. -/
theorem format_search_results_spec_witness :
    _format_search_results exampleDf3 =
      [⟨"gs://bucket/p1.pdf", "rotor", "spins", 80⟩,
        ⟨"gs://bucket/p2.pdf", "stator", "holds", 0⟩,
        ⟨"gs://bucket/p3.pdf", "valve", "seals", 100⟩] ∧
    (∃ hj : 0 < (_format_search_results exampleDf3).length,
      (_format_search_results exampleDf3).length = exampleDf3.rows.length ∧
      ((_format_search_results exampleDf3).get ⟨0, hj⟩).patent_uri
        = (exampleDf3.rows.get ⟨0, by decide⟩).uri ∧
      ((_format_search_results exampleDf3).get ⟨0, hj⟩).component
        = (exampleDf3.rows.get ⟨0, by decide⟩).component_name ∧
      ((_format_search_results exampleDf3).get ⟨0, hj⟩).function
        = (exampleDf3.rows.get ⟨0, by decide⟩).component_function ∧
      ((_format_search_results exampleDf3).get ⟨0, hj⟩).similarity
        = roundHalfEven ((1 - (exampleDf3.rows.get ⟨0, by decide⟩).distance) * 100) ∧
      |(1 - (exampleDf3.rows.get ⟨0, by decide⟩).distance) * 100
          - (((_format_search_results exampleDf3).get ⟨0, hj⟩).similarity : ℚ)| ≤ 1/2 ∧
      0 ≤ ((_format_search_results exampleDf3).get ⟨0, hj⟩).similarity ∧
      ((_format_search_results exampleDf3).get ⟨0, hj⟩).similarity ≤ 100) :=
  have e80 : roundHalfEven ((1 - (1/5 : ℚ)) * 100) = 80 := by
    have hx : ((1 : ℚ) - 1/5) * 100 = 80 := by norm_num
    rw [hx]
    unfold roundHalfEven
    norm_num
  have e0 : roundHalfEven ((1 - (1 : ℚ)) * 100) = 0 := by
    have hx : ((1 : ℚ) - 1) * 100 = 0 := by norm_num
    rw [hx]
    unfold roundHalfEven
    norm_num
  have e100 : roundHalfEven ((1 - (0 : ℚ)) * 100) = 100 := by
    have hx : ((1 : ℚ) - 0) * 100 = 100 := by norm_num
    rw [hx]
    unfold roundHalfEven
    norm_num
  ⟨by
    unfold _format_search_results exampleDf3
    simp only [List.map_cons, List.map_nil]
    rw [e80, e0, e100],
    format_search_results_spec exampleDf3 0 (by decide)
      (by show (0 : ℚ) ≤ 1/5; norm_num)
      (by show (1/5 : ℚ) ≤ 1; norm_num)⟩
